import Mathlib

/-!
Verification of the 3d-property-tours job workflow.

The repository submits property photos to a vendor world-generation API,
polls the resulting operation until it is done, and resolves a world id and
shareable viewer URL.  The definitions below are shallow embeddings of the
JavaScript in `generate-3d-tour.js`, `app/pages/api/generate.js` (three
generations of the submission handler) and `app/pages/index.js`.

Machine-number conventions: JavaScript numbers are IEEE-754 binary64, so
the azimuth computation `Math.round(i * (360 / N))` is modelled with an
explicit rounding function `fl` (round to nearest, ties to even, 53-bit
significand, defined exactly over `ℚ`) applied to the division and to the
multiplication, and `Math.round` (round half toward positive infinity) is
Mathlib's `round` applied to the exact rational value of the resulting
double.  Every intermediate value of the modelled computation is `0` or
lies in `[1/2, 1024)`, the range on which `fl` below agrees with binary64
rounding (no overflow or subnormals arise).  JavaScript string truthiness
(`undefined`, `null` and `""` are falsy) is modelled on `Option String`.
-/

/-! ## Shared JS-semantics helpers -/

/-- JavaScript `a || b` on string-valued expressions: `undefined`/`null`
(`none`) and the empty string are falsy, so they fall through to `b`. -/
def jsOrString : Option String → Option String → Option String
  | some s, b => if s = "" then b else some s
  | none, b => b

/-- JavaScript string interpolation of a possibly-undefined value:
`` `${x}` `` prints `undefined` when `x` is `undefined`. -/
def jsStringOfOption : Option String → String
  | some s => s
  | none => "undefined"

/-- Character-level test used to model JS `s.startsWith(t)`. -/
def listStartsWith : List Char → List Char → Bool
  | _, [] => true
  | [], _ :: _ => false
  | c :: cs, d :: ds => if c = d then listStartsWith cs ds else false

/-- JS `s.startsWith(t)`. -/
def jsStartsWith (s t : String) : Bool := listStartsWith s.data t.data

/-- ASCII lowering of one character, as JS `toLowerCase` acts on the
ASCII-only extension strings that occur here. -/
def lowerChar (c : Char) : Char :=
  if 'A' ≤ c ∧ c ≤ 'Z' then Char.ofNat (c.toNat + 32) else c

/-- JS `s.toLowerCase()` restricted to ASCII strings. -/
def lowerString (s : String) : String := String.mk (s.data.map lowerChar)

/-- JS `s.split(',')[1]`: the second comma-separated field, `undefined`
when the string has no comma. -/
def jsSplitCommaSecond (s : String) : Option String := (s.splitOn ",")[1]?

/-! ## Binary64 arithmetic

JavaScript numbers are IEEE-754 binary64.  `fl` rounds an exact rational
to the nearest representable double (ties to even) for arguments in
`{0} ∪ [1/2, 1024)`, which covers every intermediate value of the azimuth
computation: the quotients `360 / N` for the submission sizes considered
and all products `i * fl(360 / N)` lie in this range, where no overflow or
subnormal behaviour can occur. -/

/-- Round a rational to the nearest integer, ties to even — the rounding
of IEEE-754 round-to-nearest mode applied to a scaled significand. -/
def rne (q : ℚ) : ℤ :=
  if q - ⌊q⌋ < 1/2 then ⌊q⌋
  else if 1/2 < q - ⌊q⌋ then ⌊q⌋ + 1
  else if ⌊q⌋ % 2 = 0 then ⌊q⌋ else ⌊q⌋ + 1

/-- `52 - ⌊log₂ x⌋` for `x` in the binades of `[1/2, 1024)`: the number of
fractional bits of a binary64 significand scaled to that binade. -/
def binadeShift (x : ℚ) : ℕ :=
  if x < 1 then 53
  else if x < 2 then 52
  else if x < 4 then 51
  else if x < 8 then 50
  else if x < 16 then 49
  else if x < 32 then 48
  else if x < 64 then 47
  else if x < 128 then 46
  else if x < 256 then 45
  else if x < 512 then 44
  else 43

/-- Binary64 rounding of an exact rational: scale into the significand
range, round to nearest (ties to even), scale back.  Agrees with IEEE-754
double rounding on `{0} ∪ [1/2, 1024)`. -/
def fl (x : ℚ) : ℚ := (rne (x * 2 ^ binadeShift x) : ℚ) / 2 ^ binadeShift x

/-! ## Azimuth assignment (generate-3d-tour.js lines 180-203 and
app/pages/api/generate.js generation 1, lines 100-104)

`const angleStep = 360 / imagePaths.length;` and
`azimuth: Math.round(i * angleStep)`, both in double precision. -/

/-- The double the program stores for `360 / N`, the angular step between
consecutive images. -/
def angleStep (n : Nat) : ℚ := fl (360 / n)

/-- The azimuth attached to the image at index `i` of an `n`-image
submission with no explicit directions: `Math.round(i * angleStep)`, the
product again rounded to a double, then rounded half-up to an integer. -/
def azimuthAt (n i : Nat) : ℤ := round (fl ((i : ℚ) * angleStep n))

/-- The whole list of assigned azimuths for an `n`-image submission. -/
def azimuths (n : Nat) : List ℤ := (List.range n).map (azimuthAt n)

/-! ## Job status and the poll loop (generate-3d-tour.js lines 113-133) -/

/-- The two world-id field names the vendor response may carry
(`response.world_id || response.id`). -/
structure WorldResponse where
  world_id : Option String
  id : Option String
deriving DecidableEq

/-- One polled vendor job status: `{done, error?, response?}`. -/
structure JobStatus where
  done : Bool
  error : Option String
  response : Option WorldResponse
deriving DecidableEq

/-- Terminal outcome of the polling loop. -/
inductive PollOutcome where
  | success (st : JobStatus)
  | generationFailed (e : String)
  | timedOut
deriving DecidableEq

/-- The poll loop of `pollOperation` unrolled: at iteration `k` the elapsed
time is `k * 5000` ms (`pollInterval = 5000`, requests modelled as
instantaneous); while `elapsed < maxWaitMs` it issues one status request,
throws `Generation failed` on `done` with an error payload, returns the
status on `done` without one, and otherwise sleeps and repeats; once the
guard fails it throws the timeout error.  The second component records the
elapsed times at which status requests were issued.  `fuel` is an upper
bound on the remaining iterations, consumed only to make the recursion
structural; `pollOperation` below supplies enough for the guard to be the
only exit. -/
def pollGo (statusAt : Nat → JobStatus) (maxWaitMs : Nat) :
    Nat → Nat → PollOutcome × List Nat
  | 0, _ => (PollOutcome.timedOut, [])
  | fuel + 1, k =>
    if k * 5000 < maxWaitMs then
      if (statusAt k).done then
        match (statusAt k).error with
        | some e => (PollOutcome.generationFailed e, [k * 5000])
        | none => (PollOutcome.success (statusAt k), [k * 5000])
      else
        ((pollGo statusAt maxWaitMs fuel (k + 1)).1,
          k * 5000 :: (pollGo statusAt maxWaitMs fuel (k + 1)).2)
    else (PollOutcome.timedOut, [])

/-- `pollOperation(operationId, apiKey, maxWaitMs)`: run the poll loop from
elapsed time 0.  `statusAt k` is the vendor's answer to the `k`-th status
request. -/
def pollOperation (statusAt : Nat → JobStatus) (maxWaitMs : Nat) :
    PollOutcome × List Nat :=
  pollGo statusAt maxWaitMs (maxWaitMs / 5000 + 2) 0

/-- The default `maxWaitMs` of `pollOperation` (5 minutes). -/
def defaultMaxWaitMs : Nat := 300000

/-! ## Result resolution (generate-3d-tour.js lines 330-347,
app/pages/index.js handleGenerate lines 164-176) -/

/-- The fixed viewer-URL template `https://platform.worldlabs.ai/worlds/<id>`. -/
def platformWorldUrl (w : String) : String :=
  "https://platform.worldlabs.ai/worlds/" ++ w

/-- `statusData.response?.world_id || statusData.response?.id`. -/
def resolveWorldId (st : JobStatus) : Option String :=
  jsOrString (st.response.bind WorldResponse.world_id)
    (st.response.bind WorldResponse.id)

/-- The default viewer URL built from the resolved world id
(string interpolation of a possibly-undefined id). -/
def resolveViewUrl (st : JobStatus) : String :=
  platformWorldUrl (jsStringOfOption (resolveWorldId st))

/-- Result of the optional `GET /api/world?worldId=...` enrichment lookup:
`none` models the fetch throwing, `ok = false` a non-2xx response. -/
structure WorldLookup where
  ok : Bool
  world_marble_url : Option String
deriving DecidableEq

/-- app/pages/index.js lines 168-175: start from the template URL, then
`if (worldRes.ok) viewUrl = worldData.world_marble_url || viewUrl;` with
the whole lookup wrapped in try/catch (failure keeps the default). -/
def enrichViewUrl (worldId : String) (lookup : Option WorldLookup) : String :=
  match lookup with
  | none => platformWorldUrl worldId
  | some r =>
    if r.ok then
      match r.world_marble_url with
      | some u => if u = "" then platformWorldUrl worldId else u
      | none => platformWorldUrl worldId
    else platformWorldUrl worldId

/-! ## Upload and single-image generation (generate-3d-tour.js lines 65-77
and 151-177) -/

/-- A vendor HTTP response as the script sees it: status code, the two
possible media-id fields of the parsed body, and the raw body used in
error messages. -/
structure ApiResp where
  status : Nat
  id : Option String
  media_id : Option String
  body : String
deriving DecidableEq

/-- Outbound vendor calls made by a workflow invocation. -/
inductive ApiCall where
  | upload
  | submit
deriving DecidableEq

/-- `imageRef`: `{url}` for http inputs, `{media_id}` after an upload. -/
inductive ImageRef where
  | url (u : String)
  | mediaId (m : Option String)
deriving DecidableEq

/-- The fatal errors of the image workflow. -/
inductive GenError where
  | uploadFailed (status : Nat) (body : String)
  | submissionFailed (status : Nat) (body : String)
deriving DecidableEq

/-- The `POST /worlds/generate` step shared by all branches of
`generateFromImage`: one submission call, non-2xx raises `API error`. -/
def submitStep (ref : ImageRef) (submitResp : ApiResp) (calls : List ApiCall) :
    Except GenError ApiResp × List ApiCall :=
  if submitResp.status = 200 ∨ submitResp.status = 201 then
    (Except.ok submitResp, calls ++ [ApiCall.submit])
  else
    (Except.error (GenError.submissionFailed submitResp.status submitResp.body),
      calls ++ [ApiCall.submit])

/-- `generateFromImage(imagePathOrUrl, ...)`: http inputs are passed by
URL; otherwise one upload call is made and
`if (upload.status !== 200 && upload.status !== 201)` throws
`Upload failed` before any submission; on success the media id is
`upload.data.id || upload.data.media_id`.  The second component is the
ordered list of vendor calls issued. -/
def generateFromImage (imagePathOrUrl : String)
    (uploadResp submitResp : ApiResp) :
    Except GenError ApiResp × List ApiCall :=
  if jsStartsWith imagePathOrUrl "http" then
    submitStep (ImageRef.url imagePathOrUrl) submitResp []
  else if uploadResp.status = 200 ∨ uploadResp.status = 201 then
    submitStep (ImageRef.mediaId (jsOrString uploadResp.id uploadResp.media_id))
      submitResp [ApiCall.upload]
  else
    (Except.error (GenError.uploadFailed uploadResp.status uploadResp.body),
      [ApiCall.upload])

/-! ## MIME inference (generate-3d-tour.js lines 71-77) -/

/-- The fixed extension-to-MIME map `mimeTypes`. -/
def mimeTypesMap (ext : String) : Option String :=
  if ext = ".jpg" then some "image/jpeg"
  else if ext = ".jpeg" then some "image/jpeg"
  else if ext = ".png" then some "image/png"
  else if ext = ".webp" then some "image/webp"
  else if ext = ".mp4" then some "video/mp4"
  else if ext = ".mov" then some "video/quicktime"
  else if ext = ".mkv" then some "video/x-matroska"
  else none

/-- `mimeTypes[path.extname(filePath).toLowerCase()] ||
'application/octet-stream'` as a function of the raw extension (the map's
values are never empty, so `||` is exactly the `none` fallback). -/
def inferMimeType (ext : String) : String :=
  match mimeTypesMap (lowerString ext) with
  | some m => m
  | none => "application/octet-stream"

/-! ## Generation-3 web submission handler
(app/pages/api/generate.js lines 254-325) -/

/-- One image of the request body: `{name, type, data, direction}` with
`data` a data-URL and `direction` an optional compass name. -/
structure ImageInput where
  name : String
  data : String
  direction : Option String
deriving DecidableEq

/-- One entry of the vendor `multi_image_prompt` list.  `azimuth = none`
models the key being absent from the object; `some none` an explicitly
`undefined` value (unknown direction names). -/
structure PromptImage where
  azimuth : Option (Option Nat)
  dataB64 : Option String
deriving DecidableEq

/-- The vendor `world_prompt` shapes produced by the image branch. -/
inductive WorldPrompt where
  | imagePrompt (dataB64 : Option String)
  | multiImagePrompt (images : List PromptImage)
deriving DecidableEq

/-- `const directions = { front: 0, right: 90, back: 180, left: 270 };`
as a lookup, `none` for names outside the object. -/
def directionDegrees (d : String) : Option Nat :=
  if d = "front" then some 0
  else if d = "right" then some 90
  else if d = "back" then some 180
  else if d = "left" then some 270
  else none

/-- `img.direction ? directions[img.direction] : 0` (falsy directions,
i.e. absent or empty, default to 0). -/
def directionAzimuth (dir : Option String) : Option Nat :=
  match dir with
  | some d => if d = "" then some 0 else directionDegrees d
  | none => some 0

/-- The Auto Layout branch (lines 300-310): entries carry no azimuth key. -/
def autoLayoutImages (images : List ImageInput) : List PromptImage :=
  images.map fun img =>
    { azimuth := none, dataB64 := jsSplitCommaSecond img.data }

/-- The Direction Control branch (lines 311-324). -/
def directionControlImages (images : List ImageInput) : List PromptImage :=
  images.map fun img =>
    { azimuth := some (directionAzimuth img.direction),
      dataB64 := jsSplitCommaSecond img.data }

/-- The image part of the generation-3 handler: reject an empty list,
use `image_prompt` for exactly one image, otherwise `multi_image_prompt`
built by the Auto Layout branch when `layoutMode === 'auto'` and by the
Direction Control branch otherwise. -/
def buildImageWorldPrompt (images : List ImageInput)
    (layoutMode : Option String) : Except String WorldPrompt :=
  if images.length = 0 then Except.error "No images provided"
  else if images.length = 1 then
    Except.ok (WorldPrompt.imagePrompt
      (images.head?.bind fun img => jsSplitCommaSecond img.data))
  else if layoutMode = some "auto" then
    Except.ok (WorldPrompt.multiImagePrompt (autoLayoutImages images))
  else
    Except.ok (WorldPrompt.multiImagePrompt (directionControlImages images))

/-! ## Helper lemmas -/

theorem round_rat_mono {x y : ℚ} (h : x ≤ y) : round x ≤ round y := by
  rw [round_eq, round_eq]
  exact Int.floor_mono (by linarith)

theorem azimuths_length (n : Nat) : (azimuths n).length = n := by
  simp [azimuths]

theorem azimuths_get (n i : Nat) (h : i < (azimuths n).length) :
    (azimuths n).get ⟨i, h⟩ = azimuthAt n i := by
  simp [azimuths]

theorem rne_sub_abs_le (q : ℚ) : |(rne q : ℚ) - q| ≤ 1 / 2 := by
  have h0 : (⌊q⌋ : ℚ) ≤ q := Int.floor_le q
  have h1 : q < ⌊q⌋ + 1 := Int.lt_floor_add_one q
  rw [rne]
  split_ifs with ha hb hc
  · rw [abs_le]
    constructor <;> linarith
  · rw [abs_le]
    push_cast
    constructor <;> linarith
  · rw [abs_le]
    constructor <;> linarith
  · rw [abs_le]
    push_cast
    constructor <;> linarith

theorem rne_nonneg {q : ℚ} (h : 0 ≤ q) : 0 ≤ rne q := by
  have h0 : 0 ≤ ⌊q⌋ := Int.floor_nonneg.mpr h
  rw [rne]
  split_ifs <;> omega

theorem rne_intCast (k : ℤ) : rne (k : ℚ) = k := by
  rw [rne, Int.floor_intCast]
  norm_num

theorem fl_natCast (i : ℕ) : fl (i : ℚ) = i := by
  rw [fl]
  have h1 : (i : ℚ) * 2 ^ binadeShift (i : ℚ)
      = (((i * 2 ^ binadeShift (i : ℚ) : ℕ) : ℤ) : ℚ) := by
    push_cast
    ring
  rw [h1, rne_intCast]
  push_cast
  rw [mul_div_assoc, div_self (by positivity : ((2 : ℚ) ^ binadeShift (i : ℚ)) ≠ 0),
    mul_one]

theorem fl_zero : fl 0 = 0 := by
  simpa using fl_natCast 0

theorem fl_nonneg {x : ℚ} (h : 0 ≤ x) : 0 ≤ fl x := by
  rw [fl]
  have hr : (0 : ℤ) ≤ rne (x * 2 ^ binadeShift x) :=
    rne_nonneg (mul_nonneg h (by positivity))
  exact div_nonneg (by exact_mod_cast hr) (by positivity)

set_option maxHeartbeats 1000000 in
theorem binadeShift_spec {x : ℚ} (hx : 1 / 2 ≤ x) :
    (2 : ℚ) ^ 52 ≤ x * 2 ^ binadeShift x := by
  rw [binadeShift]
  split_ifs with h1 h2 h3 h4 h5 h6 h7 h8 h9 h10 <;> norm_num <;> linarith

theorem fl_sub_abs_le {x : ℚ} (hx : 1 / 2 ≤ x) : |fl x - x| ≤ x / 2 ^ 53 := by
  have h := rne_sub_abs_le (x * 2 ^ binadeShift x)
  have hpow : (0 : ℚ) < 2 ^ binadeShift x := by positivity
  have hspec := binadeShift_spec hx
  rw [abs_le] at h
  rw [fl, abs_le]
  constructor
  · have hlow : x - x / 2 ^ 53
        ≤ (rne (x * 2 ^ binadeShift x) : ℚ) / 2 ^ binadeShift x := by
      rw [le_div_iff hpow]
      linarith [h.1, hspec]
    linarith
  · have hhigh : (rne (x * 2 ^ binadeShift x) : ℚ) / 2 ^ binadeShift x
        ≤ x + x / 2 ^ 53 := by
      rw [div_le_iff hpow]
      linarith [h.2, hspec]
    linarith

theorem angleStep_bounds {n : Nat} (h1 : 1 ≤ n) (h359 : n ≤ 359) :
    360 / (n : ℚ) - 360 / 2 ^ 53 ≤ angleStep n ∧
    angleStep n ≤ 360 / (n : ℚ) + 360 / 2 ^ 53 ∧
    1001 / 1000 ≤ angleStep n ∧ angleStep n ≤ 361 := by
  have hn0 : (0 : ℚ) < n := by exact_mod_cast h1
  have hn359 : (n : ℚ) ≤ 359 := by exact_mod_cast h359
  have hq_lb : (360 : ℚ) / 359 ≤ 360 / (n : ℚ) :=
    div_le_div_of_nonneg_left (by norm_num) hn0 hn359
  have hq_ub : 360 / (n : ℚ) ≤ 360 := by
    rw [div_le_iff hn0]
    have hone : (1 : ℚ) ≤ n := by exact_mod_cast h1
    nlinarith
  have herr := fl_sub_abs_le (x := 360 / (n : ℚ)) (by linarith)
  rw [abs_le] at herr
  have hqd : 360 / (n : ℚ) / 2 ^ 53 ≤ 360 / 2 ^ 53 := by
    gcongr
  rw [angleStep]
  refine ⟨by linarith [herr.1], by linarith [herr.2], ?_, ?_⟩
  · have hc : (1001 : ℚ) / 1000 ≤ 360 / 359 - 360 / 2 ^ 53 := by norm_num
    linarith [herr.1]
  · have hc : (360 : ℚ) + 360 / 2 ^ 53 ≤ 361 := by norm_num
    linarith [herr.2]

theorem azimuth_fl_err {n : Nat} (h1 : 1 ≤ n) (h359 : n ≤ 359)
    {i : Nat} (hi : i < n) :
    |fl ((i : ℚ) * angleStep n) - (i : ℚ) * angleStep n| ≤ 130000 / 2 ^ 53 := by
  obtain ⟨-, -, hsl, hsu⟩ := angleStep_bounds h1 h359
  rcases Nat.eq_zero_or_pos i with rfl | hip
  · rw [show ((0 : ℕ) : ℚ) * angleStep n = 0 by norm_num]
    rw [fl_zero]
    norm_num
  · have hi1 : (1 : ℚ) ≤ i := by exact_mod_cast hip
    have hi358 : (i : ℚ) ≤ 358 := by
      have h : i ≤ 358 := by omega
      exact_mod_cast h
    have hs0 : (0 : ℚ) ≤ angleStep n := by linarith
    have hml : (1 : ℚ) * (1001 / 1000) ≤ (i : ℚ) * angleStep n :=
      mul_le_mul hi1 hsl (by norm_num) (by linarith)
    have hmu : (i : ℚ) * angleStep n ≤ 358 * 361 :=
      mul_le_mul hi358 hsu hs0 (by norm_num)
    have herr := fl_sub_abs_le (x := (i : ℚ) * angleStep n) (by linarith)
    have hd : (i : ℚ) * angleStep n / 2 ^ 53 ≤ 130000 / 2 ^ 53 := by
      gcongr
      linarith
    exact le_trans herr hd

theorem azimuthAt_strictMono_small {n : Nat} (h1 : 1 ≤ n) (h359 : n ≤ 359)
    {a b : Nat} (hab : a < b) (hbn : b < n) :
    azimuthAt n a < azimuthAt n b := by
  obtain ⟨-, -, hsl, -⟩ := angleStep_bounds h1 h359
  have hea := azimuth_fl_err h1 h359 (lt_trans hab hbn)
  have heb := azimuth_fl_err h1 h359 hbn
  rw [abs_le] at hea heb
  have hba : (a : ℚ) + 1 ≤ (b : ℚ) := by exact_mod_cast hab
  have hs0 : (0 : ℚ) ≤ angleStep n := by linarith
  have hmul : ((a : ℚ) + 1) * angleStep n ≤ (b : ℚ) * angleStep n :=
    mul_le_mul_of_nonneg_right hba hs0
  rw [add_mul, one_mul] at hmul
  have hbig : (1 : ℚ) + 260000 / 2 ^ 53 ≤ 1001 / 1000 := by norm_num
  have hgap : fl ((a : ℚ) * angleStep n) + 1 ≤ fl ((b : ℚ) * angleStep n) := by
    linarith [hea.2, heb.1]
  have hstep : azimuthAt n a + 1 ≤ azimuthAt n b := by
    rw [azimuthAt, azimuthAt, ← round_add_one]
    exact round_rat_mono hgap
  omega

theorem azimuthAt_nonneg (n i : Nat) : 0 ≤ azimuthAt n i := by
  rw [azimuthAt]
  have harg : (0 : ℚ) ≤ (i : ℚ) * angleStep n := by
    apply mul_nonneg (by positivity)
    rw [angleStep]
    exact fl_nonneg (by positivity)
  calc (0 : ℤ) = round (0 : ℚ) := round_zero.symm
    _ ≤ round (fl ((i : ℚ) * angleStep n)) := round_rat_mono (fl_nonneg harg)

theorem azimuthAt_lt_360_small {n : Nat} (h1 : 1 ≤ n) (h359 : n ≤ 359)
    {i : Nat} (hi : i < n) : azimuthAt n i < 360 := by
  have hn0 : (0 : ℚ) < n := by exact_mod_cast h1
  have hn359 : (n : ℚ) ≤ 359 := by exact_mod_cast h359
  obtain ⟨-, hsu, hsl, -⟩ := angleStep_bounds h1 h359
  have herr := azimuth_fl_err h1 h359 hi
  rw [abs_le] at herr
  have hs0 : (0 : ℚ) ≤ angleStep n := by linarith
  have hq_lb : (360 : ℚ) / 359 ≤ 360 / (n : ℚ) :=
    div_le_div_of_nonneg_left (by norm_num) hn0 hn359
  have hin : (i : ℚ) ≤ (n : ℚ) - 1 := by
    have h : (i : ℚ) + 1 ≤ n := by exact_mod_cast hi
    linarith
  have hmul : (i : ℚ) * angleStep n ≤ ((n : ℚ) - 1) * angleStep n :=
    mul_le_mul_of_nonneg_right hin hs0
  have hmul2 : ((n : ℚ) - 1) * angleStep n
      ≤ ((n : ℚ) - 1) * (360 / (n : ℚ) + 360 / 2 ^ 53) :=
    mul_le_mul_of_nonneg_left hsu (by linarith)
  have hid : ((n : ℚ) - 1) * (360 / (n : ℚ) + 360 / 2 ^ 53)
      = 360 - 360 / (n : ℚ) + ((n : ℚ) - 1) * (360 / 2 ^ 53) := by
    field_simp
    ring
  rw [hid] at hmul2
  have hsm : ((n : ℚ) - 1) * (360 / 2 ^ 53) ≤ 358 * (360 / 2 ^ 53) :=
    mul_le_mul_of_nonneg_right (by linarith) (by norm_num)
  have hc : (358 : ℚ) * (360 / 2 ^ 53) + 130000 / 2 ^ 53 ≤ 360 / 359 - 1 := by
    norm_num
  have hfle : fl ((i : ℚ) * angleStep n) ≤ 359 := by
    linarith [herr.2]
  have hlast : azimuthAt n i ≤ 359 := by
    rw [azimuthAt]
    calc round (fl ((i : ℚ) * angleStep n)) ≤ round (359 : ℚ) :=
        round_rat_mono hfle
      _ = 359 := by simp
  omega

theorem azimuthAt_near_round {n : Nat} (h1 : 1 ≤ n) (h359 : n ≤ 359)
    {i : Nat} (hi : i < n) :
    |azimuthAt n i - round (((i : ℚ) * 360) / n)| ≤ 1 := by
  obtain ⟨hs_lb, hs_ub, -, -⟩ := angleStep_bounds h1 h359
  have herr := azimuth_fl_err h1 h359 hi
  rw [abs_le] at herr
  have hi358 : (i : ℚ) ≤ 358 := by
    have h : i ≤ 358 := by omega
    exact_mod_cast h
  have hi0 : (0 : ℚ) ≤ i := by positivity
  have hup : (i : ℚ) * angleStep n
      ≤ (i : ℚ) * (360 / (n : ℚ)) + 358 * (360 / 2 ^ 53) := by
    have ha : (i : ℚ) * angleStep n ≤ (i : ℚ) * (360 / (n : ℚ) + 360 / 2 ^ 53) :=
      mul_le_mul_of_nonneg_left hs_ub hi0
    rw [mul_add] at ha
    have hb : (i : ℚ) * (360 / 2 ^ 53) ≤ 358 * (360 / 2 ^ 53) :=
      mul_le_mul_of_nonneg_right hi358 (by norm_num)
    linarith
  have hdn : (i : ℚ) * (360 / (n : ℚ)) - 358 * (360 / 2 ^ 53)
      ≤ (i : ℚ) * angleStep n := by
    have ha : (i : ℚ) * (360 / (n : ℚ) - 360 / 2 ^ 53) ≤ (i : ℚ) * angleStep n :=
      mul_le_mul_of_nonneg_left hs_lb hi0
    rw [mul_sub] at ha
    have hb : (i : ℚ) * (360 / 2 ^ 53) ≤ 358 * (360 / 2 ^ 53) :=
      mul_le_mul_of_nonneg_right hi358 (by norm_num)
    linarith
  have hconst : (358 : ℚ) * (360 / 2 ^ 53) + 130000 / 2 ^ 53 ≤ 1 := by norm_num
  have hqe : (i : ℚ) * (360 / (n : ℚ)) = ((i : ℚ) * 360) / n :=
    (mul_div_assoc _ _ _).symm
  have hle : fl ((i : ℚ) * angleStep n) ≤ ((i : ℚ) * 360) / n + 1 := by
    rw [← hqe]
    linarith [herr.2]
  have hge : ((i : ℚ) * 360) / n - 1 ≤ fl ((i : ℚ) * angleStep n) := by
    rw [← hqe]
    linarith [herr.1]
  rw [abs_le]
  constructor
  · have hdown : round (((i : ℚ) * 360) / n) - 1 ≤ azimuthAt n i := by
      rw [azimuthAt, ← round_sub_one]
      exact round_rat_mono hge
    omega
  · have hup2 : azimuthAt n i ≤ round (((i : ℚ) * 360) / n) + 1 := by
      rw [azimuthAt, ← round_add_one]
      exact round_rat_mono hle
    omega

theorem azimuthAt_360 (i : Nat) : azimuthAt 360 i = i := by
  have hstep : angleStep 360 = 1 := by
    rw [angleStep]
    rw [show (360 : ℚ) / ((360 : Nat) : ℚ) = ((1 : Nat) : ℚ) by norm_num]
    rw [fl_natCast]
    norm_num
  rw [azimuthAt, hstep, mul_one, fl_natCast, round_natCast]

/-! ## Concrete binary64 evaluations used by claim C1 -/

theorem angleStep_361_eq : angleStep 361 = 8982248564284646 / 2 ^ 53 := by
  have hb : binadeShift ((360 : ℚ) / ((361 : Nat) : ℚ)) = 53 := by
    norm_num [binadeShift]
  have hq : (360 : ℚ) / ((361 : Nat) : ℚ) * 2 ^ 53 = 3242591731706757120 / 361 := by
    norm_num
  have hf : ⌊(3242591731706757120 : ℚ) / 361⌋ = 8982248564284645 := by
    rw [Int.floor_eq_iff]
    constructor <;> norm_num
  have hr : rne ((3242591731706757120 : ℚ) / 361) = 8982248564284646 := by
    rw [rne, hf, if_neg (by norm_num), if_pos (by norm_num)]
    norm_num
  rw [angleStep, fl, hb, hq, hr]
  norm_num

theorem azimuthAt_361_180 : azimuthAt 361 180 = 180 := by
  have hb : binadeShift ((180 : ℚ) * (8982248564284646 / 2 ^ 53)) = 45 := by
    norm_num [binadeShift]
  have hq : (180 : ℚ) * (8982248564284646 / 2 ^ 53) * 2 ^ 45
      = 202100592696404535 / 32 := by
    norm_num
  have hf : ⌊(202100592696404535 : ℚ) / 32⌋ = 6315643521762641 := by
    rw [Int.floor_eq_iff]
    constructor <;> norm_num
  have hr : rne ((202100592696404535 : ℚ) / 32) = 6315643521762642 := by
    rw [rne, hf, if_neg (by norm_num), if_pos (by norm_num)]
    norm_num
  rw [azimuthAt, angleStep_361_eq, show ((180 : Nat) : ℚ) = 180 by norm_num,
    fl, hb, hq, hr, round_eq, Int.floor_eq_iff]
  constructor <;> norm_num

theorem azimuthAt_361_181 : azimuthAt 361 181 = 180 := by
  have hb : binadeShift ((181 : ℚ) * (8982248564284646 / 2 ^ 53)) = 45 := by
    norm_num [binadeShift]
  have hq : (181 : ℚ) * (8982248564284646 / 2 ^ 53) * 2 ^ 45
      = 812893495067760463 / 128 := by
    norm_num
  have hf : ⌊(812893495067760463 : ℚ) / 128⌋ = 6350730430216878 := by
    rw [Int.floor_eq_iff]
    constructor <;> norm_num
  have hr : rne ((812893495067760463 : ℚ) / 128) = 6350730430216879 := by
    rw [rne, hf, if_neg (by norm_num), if_pos (by norm_num)]
    norm_num
  rw [azimuthAt, angleStep_361_eq, show ((181 : Nat) : ℚ) = 181 by norm_num,
    fl, hb, hq, hr, round_eq, Int.floor_eq_iff]
  constructor <;> norm_num

theorem angleStep_304_eq : angleStep 304 = 5333210085044008 / 2 ^ 52 := by
  have hb : binadeShift ((360 : ℚ) / ((304 : Nat) : ℚ)) = 52 := by
    norm_num [binadeShift]
  have hq : (360 : ℚ) / ((304 : Nat) : ℚ) * 2 ^ 52 = 101330991615836160 / 19 := by
    norm_num
  have hf : ⌊(101330991615836160 : ℚ) / 19⌋ = 5333210085044008 := by
    rw [Int.floor_eq_iff]
    constructor <;> norm_num
  have hr : rne ((101330991615836160 : ℚ) / 19) = 5333210085044008 := by
    rw [rne, hf, if_pos (by norm_num)]
  rw [angleStep, fl, hb, hq, hr]
  norm_num

theorem azimuthAt_304_95 : azimuthAt 304 95 = 112 := by
  have hb : binadeShift ((95 : ℚ) * (5333210085044008 / 2 ^ 52)) = 46 := by
    norm_num [binadeShift]
  have hq : (95 : ℚ) * (5333210085044008 / 2 ^ 52) * 2 ^ 46
      = 63331869759897595 / 8 := by
    norm_num
  have hf : ⌊(63331869759897595 : ℚ) / 8⌋ = 7916483719987199 := by
    rw [Int.floor_eq_iff]
    constructor <;> norm_num
  have hr : rne ((63331869759897595 : ℚ) / 8) = 7916483719987199 := by
    rw [rne, hf, if_pos (by norm_num)]
  rw [azimuthAt, angleStep_304_eq, show ((95 : Nat) : ℚ) = 95 by norm_num,
    fl, hb, hq, hr, round_eq, Int.floor_eq_iff]
  constructor <;> norm_num

/-! ## Claim C1 -/

/-- Claim C1, counterexample at two concrete inputs.  At `N = 304` the
program's azimuth for index 95 is 112 — the double products sit just below
the exact half-integer 112.5, which `round(95 * 360 / 304)` would round up
to 113 — refuting the claimed formula.  At `N = 361` the angular step
falls below one degree and indices 180 and 181 both receive azimuth 180,
refuting strict monotonicity.  So the claim quantified over all `N ≥ 1`
fails, and even its formula conjunct fails inside `1 ≤ N ≤ 360`. -/
theorem azimuth_claim_counterexample :
    (azimuthAt 304 95 = 112 ∧ round (((95 : ℚ) * 360) / 304) = 113) ∧
    ¬ ((azimuths 361).Pairwise (· < ·) ∧
      ∀ a ∈ azimuths 361, 0 ≤ a ∧ a < 360) := by
  refine ⟨⟨azimuthAt_304_95, ?_⟩, ?_⟩
  · rw [round_eq, Int.floor_eq_iff]
    constructor <;> norm_num
  · rintro ⟨hp, -⟩
    have h180 : (180 : Nat) < (azimuths 361).length := by
      rw [azimuths_length]; norm_num
    have h181 : (181 : Nat) < (azimuths 361).length := by
      rw [azimuths_length]; norm_num
    have hlt := List.pairwise_iff_get.mp hp ⟨180, h180⟩ ⟨181, h181⟩ (by simp)
    rw [azimuths_get, azimuths_get] at hlt
    rw [azimuthAt_361_180, azimuthAt_361_181] at hlt
    exact lt_irrefl _ hlt

/-- Claim C1 (amended: restricted to `1 ≤ N ≤ 360`, and with the formula
conjunct weakened to what binary64 evaluation guarantees, as the `N = 304`
counterexample forces): with no explicit direction assigned, the azimuth
at index `i` differs from `round(i * 360 / N)` by at most 1 (the double
rounding of the division and the multiplication can move a product across
a half-integer), the azimuths are strictly increasing, and all lie within
`[0, 360)`. -/
theorem azimuth_spacing_amended (n : Nat) (h1 : 1 ≤ n) (h360 : n ≤ 360) :
    (∀ i, i < n → |azimuthAt n i - round (((i : ℚ) * 360) / n)| ≤ 1) ∧
    (azimuths n).Pairwise (· < ·) ∧
    ∀ a ∈ azimuths n, 0 ≤ a ∧ a < 360 := by
  rcases Nat.lt_or_ge n 360 with hlt | hge
  · have h359 : n ≤ 359 := by omega
    refine ⟨fun i hi => azimuthAt_near_round h1 h359 hi, ?_, ?_⟩
    · refine List.pairwise_iff_get.mpr ?_
      intro i j hij
      rw [azimuths_get, azimuths_get]
      have hj : (j : Nat) < n := lt_of_lt_of_eq j.isLt (azimuths_length n)
      exact azimuthAt_strictMono_small h1 h359 hij hj
    · intro a ha
      rw [azimuths, List.mem_map] at ha
      obtain ⟨i, hi, rfl⟩ := ha
      rw [List.mem_range] at hi
      exact ⟨azimuthAt_nonneg n i, azimuthAt_lt_360_small h1 h359 hi⟩
  · have hn : n = 360 := le_antisymm h360 hge
    subst hn
    refine ⟨fun i hi => ?_, ?_, ?_⟩
    · rw [azimuthAt_360]
      rw [show ((i : ℚ) * 360) / ((360 : Nat) : ℚ) = ((i : ℕ) : ℚ) by
        push_cast
        ring]
      rw [round_natCast]
      simp
    · refine List.pairwise_iff_get.mpr ?_
      intro i j hij
      rw [azimuths_get, azimuths_get, azimuthAt_360, azimuthAt_360]
      have hij2 : (i : Nat) < (j : Nat) := hij
      exact_mod_cast hij2
    · intro a ha
      rw [azimuths, List.mem_map] at ha
      obtain ⟨i, hi, rfl⟩ := ha
      rw [List.mem_range] at hi
      rw [azimuthAt_360]
      exact ⟨by positivity, by exact_mod_cast hi⟩

/-- Witness for C1 at `N = 4` (the spec's own scenario). -/
theorem azimuth_spacing_amended_witness :
    (1 ≤ 4 ∧ 4 ≤ 360) ∧
    ((azimuths 4).Pairwise (· < ·) ∧ ∀ a ∈ azimuths 4, 0 ≤ a ∧ a < 360) :=
  ⟨⟨by norm_num, by norm_num⟩,
    (azimuth_spacing_amended 4 (by norm_num) (by norm_num)).2⟩

theorem pollGo_request_times_lt (s : Nat → JobStatus) (m : Nat) :
    ∀ fuel k t, t ∈ (pollGo s m fuel k).2 → t < m := by
  intro fuel
  induction fuel with
  | zero => intro k t ht; simp [pollGo] at ht
  | succ f ih =>
    intro k t ht
    simp only [pollGo] at ht
    split at ht
    · rename_i hk
      split at ht
      · split at ht <;> simp_all
      · simp only [List.mem_cons] at ht
        rcases ht with h1 | h2
        · omega
        · exact ih (k + 1) t h2
    · simp at ht

theorem pollGo_timedOut (s : Nat → JobStatus) (m : Nat)
    (h : ∀ j, (s j).done = false) :
    ∀ fuel k, (pollGo s m fuel k).1 = PollOutcome.timedOut := by
  intro fuel
  induction fuel with
  | zero => intro k; simp [pollGo]
  | succ f ih =>
    intro k
    simp only [pollGo, h k]
    split
    · simpa using ih (k + 1)
    · rfl

theorem pollGo_success_inv (s : Nat → JobStatus) (m : Nat) :
    ∀ fuel k st, (pollGo s m fuel k).1 = PollOutcome.success st →
      st.done = true ∧ st.error = none := by
  intro fuel
  induction fuel with
  | zero => intro k st h; simp [pollGo] at h
  | succ f ih =>
    intro k st h
    simp only [pollGo] at h
    split at h
    · split at h
      · rename_i hdone
        split at h
        · simp at h
        · rename_i herr
          simp only [Prod.fst] at h
          cases h
          exact ⟨hdone, herr⟩
      · exact ih (k + 1) st h
    · simp at h

theorem pollGo_generationFailed (s : Nat → JobStatus) (m : Nat)
    (j : Nat) (e : String) (hj : j * 5000 < m)
    (hbefore : ∀ i, i < j → (s i).done = false)
    (hdone : (s j).done = true) (herr : (s j).error = some e) :
    ∀ fuel k, k ≤ j → j < k + fuel →
      (pollGo s m fuel k).1 = PollOutcome.generationFailed e := by
  intro fuel
  induction fuel with
  | zero => intro k hk hfuel; omega
  | succ f ih =>
    intro k hk hfuel
    have hguard : k * 5000 < m :=
      lt_of_le_of_lt (Nat.mul_le_mul_right 5000 hk) hj
    rcases Nat.lt_or_ge k j with hkj | hkj
    · have hnotdone := hbefore k hkj
      simp only [pollGo, if_pos hguard, hnotdone]
      simpa using ih (k + 1) hkj (by omega)
    · have hkeq : k = j := le_antisymm hk hkj
      subst hkeq
      simp [pollGo, if_pos hguard, hdone, herr]

/-! ## Claim C3 -/

/-- Claim C3: a polled status with `done = true` and a populated error
payload makes the workflow raise `Generation failed` with the vendor
error, and a successful outcome (the only source of a TourResult, hence of
a populated worldId/viewUrl) arises only from a status with `done = true`
and no error payload. -/
theorem poll_error_raises_generationFailed (s : Nat → JobStatus) (m : Nat) :
    (∀ st, (pollOperation s m).1 = PollOutcome.success st →
      st.done = true ∧ st.error = none) ∧
    (∀ j e, j * 5000 < m → (∀ i, i < j → (s i).done = false) →
      (s j).done = true → (s j).error = some e →
      (pollOperation s m).1 = PollOutcome.generationFailed e) := by
  constructor
  · intro st h
    exact pollGo_success_inv s m (m / 5000 + 2) 0 st h
  · intro j e hj hbefore hdone herr
    have hle : j ≤ m / 5000 := by
      rw [Nat.le_div_iff_mul_le (by norm_num : 0 < 5000)]
      omega
    exact pollGo_generationFailed s m j e hj hbefore hdone herr
      (m / 5000 + 2) 0 (Nat.zero_le j) (by omega)

/-- Witness for C3: the very first status is done with error payload
`boom`; polling with the default five-minute budget raises
`generationFailed "boom"`. -/
theorem poll_error_raises_generationFailed_witness :
    (pollOperation
        (fun _ => { done := true, error := some "boom", response := none })
        300000).1 = PollOutcome.generationFailed "boom" :=
  (poll_error_raises_generationFailed
      (fun _ => { done := true, error := some "boom", response := none })
      300000).2 0 "boom" (by norm_num)
    (fun i hi => absurd hi (Nat.not_lt_zero i)) rfl rfl

/-! ## Claim C4 -/

/-- Claim C4: when no polled status ever reports `done = true`, the poller
ends in the timeout outcome, and every status request it issued was made
strictly before the configured timeout elapsed (so none is issued
afterwards). -/
theorem poll_timeout (s : Nat → JobStatus) (m : Nat)
    (h : ∀ j, (s j).done = false) :
    (pollOperation s m).1 = PollOutcome.timedOut ∧
    ∀ t ∈ (pollOperation s m).2, t < m := by
  constructor
  · exact pollGo_timedOut s m h (m / 5000 + 2) 0
  · intro t ht
    exact pollGo_request_times_lt s m (m / 5000 + 2) 0 t ht

/-- Witness for C4 at the default 300000 ms timeout with a job that never
finishes. -/
theorem poll_timeout_witness :
    (pollOperation (fun _ => { done := false, error := none, response := none })
        defaultMaxWaitMs).1 = PollOutcome.timedOut ∧
    ∀ t ∈ (pollOperation
        (fun _ => { done := false, error := none, response := none })
        defaultMaxWaitMs).2, t < defaultMaxWaitMs :=
  poll_timeout (fun _ => { done := false, error := none, response := none })
    defaultMaxWaitMs (fun _ => rfl)

/-! ## Claim C2 -/

/-- Claim C2, counterexample: a terminal status with `done = true`, no
error payload and a response carrying neither `world_id` nor `id` makes
the resolver produce no world id at all (`undefined`, interpolated into
the view URL as the literal string `undefined`), so the claim that every
such terminal status yields a non-empty worldId fails at this input. -/
theorem resolver_worldId_counterexample :
    ¬ ∃ w, resolveWorldId
        { done := true, error := none,
          response := some { world_id := none, id := none } } = some w ∧
      w ≠ "" ∧
      ∃ a b, resolveViewUrl
        { done := true, error := none,
          response := some { world_id := none, id := none } } = a ++ w ++ b := by
  rintro ⟨w, hw, -, -⟩
  simp [resolveWorldId, jsOrString] at hw

/-- Claim C2 (amended: for terminal statuses whose response carries a
non-empty value in at least one of the two field names `world_id` and
`id`): the resolver returns a non-empty worldId — the first truthy of
`world_id` and `id` — and the view URL is exactly the template
`https://platform.worldlabs.ai/worlds/<worldId>`, which contains the
worldId. -/
theorem resolver_worldId_amended (st : JobStatus)
    (hresp : ∃ r, st.response = some r ∧
      ((∃ s, r.world_id = some s ∧ s ≠ "") ∨ (∃ s, r.id = some s ∧ s ≠ ""))) :
    ∃ w, resolveWorldId st = some w ∧ w ≠ "" ∧
      resolveViewUrl st = "https://platform.worldlabs.ai/worlds/" ++ w ∧
      ∃ a b, resolveViewUrl st = a ++ w ++ b := by
  obtain ⟨r, hr, hcases⟩ := hresp
  have hw : ∃ w, resolveWorldId st = some w ∧ w ≠ "" := by
    rw [resolveWorldId, hr]
    rcases hcases with ⟨s, hs, hne⟩ | ⟨s, hs, hne⟩
    · exact ⟨s, by simp [jsOrString, hs, hne], hne⟩
    · rcases hrw : r.world_id with - | t
      · exact ⟨s, by simp [jsOrString, hrw, hs], hne⟩
      · by_cases ht : t = ""
        · exact ⟨s, by simp [jsOrString, hrw, ht, hs], hne⟩
        · exact ⟨t, by simp [jsOrString, hrw, ht], ht⟩
  obtain ⟨w, hw, hne⟩ := hw
  refine ⟨w, hw, hne, ?_, ?_⟩
  · rw [resolveViewUrl, hw, platformWorldUrl, jsStringOfOption]
  · exact ⟨"https://platform.worldlabs.ai/worlds/", "", by
      rw [resolveViewUrl, hw, platformWorldUrl, jsStringOfOption,
        String.append_empty]⟩

/-- Witness for C2 on the spec's own scenario
`{done:true, response:{world_id:"abc123"}}`. -/
theorem resolver_worldId_amended_witness :
    ∃ w, resolveWorldId
        { done := true, error := none,
          response := some { world_id := some "abc123", id := none } } = some w ∧
      w ≠ "" ∧
      resolveViewUrl
        { done := true, error := none,
          response := some { world_id := some "abc123", id := none } } =
        "https://platform.worldlabs.ai/worlds/" ++ w ∧
      ∃ a b, resolveViewUrl
        { done := true, error := none,
          response := some { world_id := some "abc123", id := none } } =
        a ++ w ++ b :=
  resolver_worldId_amended
    { done := true, error := none,
      response := some { world_id := some "abc123", id := none } }
    ⟨{ world_id := some "abc123", id := none }, rfl,
      Or.inl ⟨"abc123", rfl, by simp⟩⟩

/-! ## Claim C5 -/

/-- Claim C5: when the media upload answers with a status outside 2xx
(the script accepts exactly 200 and 201), the workflow aborts with the
upload failure carrying the vendor status and body, exactly one upload
call was made (no retry), and no job-submission call is issued. -/
theorem upload_failure_aborts (imagePathOrUrl : String)
    (uploadResp submitResp : ApiResp)
    (hlocal : jsStartsWith imagePathOrUrl "http" = false)
    (h200 : uploadResp.status ≠ 200) (h201 : uploadResp.status ≠ 201) :
    (generateFromImage imagePathOrUrl uploadResp submitResp).1 =
      Except.error (GenError.uploadFailed uploadResp.status uploadResp.body) ∧
    (generateFromImage imagePathOrUrl uploadResp submitResp).2 =
      [ApiCall.upload] ∧
    ApiCall.submit ∉ (generateFromImage imagePathOrUrl uploadResp submitResp).2 ∧
    (generateFromImage imagePathOrUrl uploadResp submitResp).2.count
      ApiCall.upload = 1 := by
  have hfail : ¬ (uploadResp.status = 200 ∨ uploadResp.status = 201) := by
    rintro (h | h) <;> simp_all
  rw [generateFromImage, hlocal]
  simp [hfail]

/-- Witness for C5: a local file whose upload is rejected with vendor
status 413. -/
theorem upload_failure_aborts_witness :
    (generateFromImage "room.jpg"
        { status := 413, id := none, media_id := none, body := "too large" }
        { status := 200, id := none, media_id := none, body := "" }).1 =
      Except.error (GenError.uploadFailed 413 "too large") ∧
    (generateFromImage "room.jpg"
        { status := 413, id := none, media_id := none, body := "too large" }
        { status := 200, id := none, media_id := none, body := "" }).2 =
      [ApiCall.upload] ∧
    ApiCall.submit ∉ (generateFromImage "room.jpg"
        { status := 413, id := none, media_id := none, body := "too large" }
        { status := 200, id := none, media_id := none, body := "" }).2 ∧
    (generateFromImage "room.jpg"
        { status := 413, id := none, media_id := none, body := "too large" }
        { status := 200, id := none, media_id := none, body := "" }).2.count
      ApiCall.upload = 1 :=
  upload_failure_aborts "room.jpg"
    { status := 413, id := none, media_id := none, body := "too large" }
    { status := 200, id := none, media_id := none, body := "" }
    (by decide) (by decide) (by decide)

/-! ## Claim C6 -/

/-- Claim C6: in the Direction Control branch, an image with an explicit
compass direction gets that direction's fixed degree value
(front 0, right 90, back 180, left 270) whatever its index `i`, and an
image without an explicit direction gets azimuth 0. -/
theorem direction_control_azimuth (images : List ImageInput) (i : Nat)
    (img : ImageInput) (himg : images[i]? = some img) :
    ∃ p, (directionControlImages images)[i]? = some p ∧
      (img.direction = some "front" → p.azimuth = some (some 0)) ∧
      (img.direction = some "right" → p.azimuth = some (some 90)) ∧
      (img.direction = some "back" → p.azimuth = some (some 180)) ∧
      (img.direction = some "left" → p.azimuth = some (some 270)) ∧
      (img.direction = none → p.azimuth = some (some 0)) := by
  refine ⟨{ azimuth := some (directionAzimuth img.direction),
            dataB64 := jsSplitCommaSecond img.data }, ?_, ?_, ?_, ?_, ?_, ?_⟩
  · rw [directionControlImages, List.getElem?_map, himg]
    rfl
  all_goals intro h
  all_goals rw [h]
  all_goals rfl

/-- Witness for C6: a single image explicitly directed `back` is given
azimuth 180. -/
theorem direction_control_azimuth_witness :
    ∃ p, (directionControlImages
        [{ name := "yard.jpg", data := "data:image/jpeg;base64,AAA",
           direction := some "back" }])[0]? = some p ∧
      ((some "back" : Option String) = some "front" → p.azimuth = some (some 0)) ∧
      ((some "back" : Option String) = some "right" → p.azimuth = some (some 90)) ∧
      ((some "back" : Option String) = some "back" → p.azimuth = some (some 180)) ∧
      ((some "back" : Option String) = some "left" → p.azimuth = some (some 270)) ∧
      ((some "back" : Option String) = none → p.azimuth = some (some 0)) :=
  direction_control_azimuth
    [{ name := "yard.jpg", data := "data:image/jpeg;base64,AAA",
       direction := some "back" }] 0
    { name := "yard.jpg", data := "data:image/jpeg;base64,AAA",
      direction := some "back" } rfl

/-! ## Claim C7 -/

/-- Claim C7: when the optional world-metadata lookup throws, answers
non-2xx, or supplies no truthy `world_marble_url`, the resolver keeps the
default template viewer URL (the lookup is non-fatal: a URL is returned in
every case); when the lookup succeeds with a non-empty vendor URL, that
URL is preferred. -/
theorem enrich_view_url_fallback (worldId : String)
    (lookup : Option WorldLookup) :
    ((lookup = none ∨ ∃ r, lookup = some r ∧
        (r.ok = false ∨ r.world_marble_url = none ∨
          r.world_marble_url = some "")) →
      enrichViewUrl worldId lookup = platformWorldUrl worldId) ∧
    (∀ r u, lookup = some r → r.ok = true → r.world_marble_url = some u →
      u ≠ "" → enrichViewUrl worldId lookup = u) := by
  constructor
  · rintro (rfl | ⟨r, rfl, hcase⟩)
    · rfl
    · rcases hcase with hok | hurl | hurl
      · simp [enrichViewUrl, hok]
      · simp [enrichViewUrl, hurl]
      · simp [enrichViewUrl, hurl]
  · rintro r u rfl hok hurl hne
    simp [enrichViewUrl, hok, hurl, hne]

/-- Witness for C7: a thrown lookup falls back to the template URL. -/
theorem enrich_view_url_fallback_witness :
    enrichViewUrl "abc123" none = platformWorldUrl "abc123" :=
  (enrich_view_url_fallback "abc123" none).1 (Or.inl rfl)

/-! ## Claim C8 -/

/-- Claim C8: the MIME type is inferred from the lowercased file extension
through the fixed extension map, and any extension outside the map falls
back to `application/octet-stream`. -/
theorem mime_inference (ext : String) :
    (lowerString ext = ".jpg" → inferMimeType ext = "image/jpeg") ∧
    (lowerString ext = ".jpeg" → inferMimeType ext = "image/jpeg") ∧
    (lowerString ext = ".png" → inferMimeType ext = "image/png") ∧
    (lowerString ext = ".webp" → inferMimeType ext = "image/webp") ∧
    (lowerString ext = ".mp4" → inferMimeType ext = "video/mp4") ∧
    (lowerString ext = ".mov" → inferMimeType ext = "video/quicktime") ∧
    (lowerString ext = ".mkv" → inferMimeType ext = "video/x-matroska") ∧
    (lowerString ext ∉
        [".jpg", ".jpeg", ".png", ".webp", ".mp4", ".mov", ".mkv"] →
      inferMimeType ext = "application/octet-stream") := by
  refine ⟨?_, ?_, ?_, ?_, ?_, ?_, ?_, ?_⟩
  case _ => intro h; rw [inferMimeType, h]; rfl
  case _ => intro h; rw [inferMimeType, h]; rfl
  case _ => intro h; rw [inferMimeType, h]; rfl
  case _ => intro h; rw [inferMimeType, h]; rfl
  case _ => intro h; rw [inferMimeType, h]; rfl
  case _ => intro h; rw [inferMimeType, h]; rfl
  case _ => intro h; rw [inferMimeType, h]; rfl
  case _ =>
    intro h
    simp only [List.mem_cons, List.not_mem_nil, or_false, not_or] at h
    obtain ⟨h1, h2, h3, h4, h5, h6, h7⟩ := h
    simp [inferMimeType, mimeTypesMap, h1, h2, h3, h4, h5, h6, h7]

/-- Witness for C8: the uppercase extension `.JPG` maps to `image/jpeg`
via lowercasing. -/
theorem mime_inference_witness : inferMimeType ".JPG" = "image/jpeg" :=
  (mime_inference ".JPG").1 (by decide)

/-! ## Claim C9 -/

/-- Claim C9: the web submission handler produces the single-image
`image_prompt` shape for exactly one image (never the multi-image shape
there), and the `multi_image_prompt` shape arises only for two or more
images. -/
theorem single_vs_multi_prompt (images : List ImageInput)
    (layoutMode : Option String) :
    (images.length = 1 → ∃ c, buildImageWorldPrompt images layoutMode =
      Except.ok (WorldPrompt.imagePrompt c)) ∧
    (∀ l, buildImageWorldPrompt images layoutMode =
      Except.ok (WorldPrompt.multiImagePrompt l) → 2 ≤ images.length) := by
  constructor
  · intro h1
    refine ⟨images.head?.bind fun img => jsSplitCommaSecond img.data, ?_⟩
    rw [buildImageWorldPrompt, if_neg (by omega), if_pos h1]
  · intro l hl
    by_contra hlt
    push_neg at hlt
    have h01 : images.length = 0 ∨ images.length = 1 := by omega
    rcases h01 with h0 | h1
    · rw [buildImageWorldPrompt, if_pos h0] at hl
      simp at hl
    · rw [buildImageWorldPrompt, if_neg (by omega), if_pos h1] at hl
      simp at hl

/-- Witness for C9: one image yields the `image_prompt` shape. -/
theorem single_vs_multi_prompt_witness :
    ∃ c, buildImageWorldPrompt
        [{ name := "a.jpg", data := "data:image/jpeg;base64,AAA",
           direction := none }] none =
      Except.ok (WorldPrompt.imagePrompt c) :=
  (single_vs_multi_prompt
      [{ name := "a.jpg", data := "data:image/jpeg;base64,AAA",
         direction := none }] none).1 rfl

/-! ## Claim C10 -/

/-- Claim C10: in the newest handler, a multi-image submission with layout
mode `auto` produces a `multi_image_prompt` whose entries carry no azimuth
key at all. -/
theorem auto_layout_no_azimuth (images : List ImageInput)
    (h2 : 2 ≤ images.length) :
    ∃ l, buildImageWorldPrompt images (some "auto") =
      Except.ok (WorldPrompt.multiImagePrompt l) ∧
      ∀ p ∈ l, p.azimuth = none := by
  refine ⟨autoLayoutImages images, ?_, ?_⟩
  · rw [buildImageWorldPrompt, if_neg (by omega), if_neg (by omega),
      if_pos rfl]
  · intro p hp
    rw [autoLayoutImages, List.mem_map] at hp
    obtain ⟨img, -, rfl⟩ := hp
    rfl

/-- Witness for C10 on a two-image auto-layout submission. -/
theorem auto_layout_no_azimuth_witness :
    ∃ l, buildImageWorldPrompt
        [{ name := "a.jpg", data := "data:image/jpeg;base64,AAA",
           direction := none },
         { name := "b.jpg", data := "data:image/jpeg;base64,BBB",
           direction := none }] (some "auto") =
      Except.ok (WorldPrompt.multiImagePrompt l) ∧
      ∀ p ∈ l, p.azimuth = none :=
  auto_layout_no_azimuth
    [{ name := "a.jpg", data := "data:image/jpeg;base64,AAA",
       direction := none },
     { name := "b.jpg", data := "data:image/jpeg;base64,BBB",
       direction := none }] (by simp)
